import Mathlib

/-!
Shallow embedding of the PostgreSQL command-trigger patch:
`src/backend/commands/cmdtrigger.c`, `src/backend/utils/cache/evtcache.c`
and the headers `commands/cmdtrigger.h`, `catalog/pg_event_trigger.h`.

The catalog storage engine is external to this core: the `pg_cmdtrigger`
catalog is embedded as a `List CmdTrigger` of rows, and the ordered index
scan over `CmdTriggerCommandNameIndexId` (equality on `ctgcommand`, rows
yielded in `ctgname` order) is embedded as filter-then-sort-by-name, per
the catalog collaborator contract.  The name order itself (`strcmp` on
`NameData`) is embedded as lexicographic comparison of character lists.
Procedure invocation is external as well: the outcome of calling
procedure `p` is an oracle `results : Nat → Option Bool` (`none` models
a SQL NULL result, `some b` a non-null boolean datum).
-/

namespace CmdTrig

/-- Lexicographic less-or-equal on character lists: the embedding of the
`strcmp` byte order used by the catalog's name indexes. -/
def charListLE : List Char → List Char → Bool
  | [], _ => true
  | _ :: _, [] => false
  | a :: xs, b :: ys =>
    if a < b then true
    else if b < a then false
    else charListLE xs ys

theorem charListLE_total : ∀ xs ys, charListLE xs ys = true ∨ charListLE ys xs = true := by
  intro xs
  induction xs with
  | nil => intro ys; left; rfl
  | cons a xs ih =>
    intro ys
    cases ys with
    | nil => right; rfl
    | cons b ys =>
      rcases lt_trichotomy a b with h | h | h
      · left; simp [charListLE, h]
      · subst h
        rcases ih ys with h' | h'
        · left; simp [charListLE, lt_irrefl, h']
        · right; simp [charListLE, lt_irrefl, h']
      · right; simp [charListLE, h]

theorem charListLE_trans :
    ∀ xs ys zs, charListLE xs ys = true → charListLE ys zs = true →
      charListLE xs zs = true := by
  intro xs
  induction xs with
  | nil => intro ys zs _ _; rfl
  | cons a xs ih =>
    intro ys zs h₁ h₂
    cases ys with
    | nil => simp [charListLE] at h₁
    | cons b ys =>
      cases zs with
      | nil => simp [charListLE] at h₂
      | cons c zs =>
        by_cases hab : a < b
        · by_cases hbc : b < c
          · simp [charListLE, lt_trans hab hbc]
          · by_cases hcb : c < b
            · simp [charListLE, hbc, hcb] at h₂
            · have : b = c := le_antisymm (not_lt.mp hcb) (not_lt.mp hbc)
              subst this
              simp [charListLE, hab]
        · by_cases hba : b < a
          · simp [charListLE, hab, hba] at h₁
          · have : a = b := le_antisymm (not_lt.mp hba) (not_lt.mp hab)
            subst this
            simp only [charListLE, lt_irrefl, if_neg (lt_irrefl a), if_false] at h₁
            by_cases hac : a < c
            · simp [charListLE, hac]
            · by_cases hca : c < a
              · simp [charListLE, hac, hca] at h₂
              · simp only [charListLE, lt_irrefl, if_neg hac, if_neg hca, if_false] at h₂ ⊢
                exact ih ys zs h₁ h₂

theorem charListLE_antisymm :
    ∀ xs ys, charListLE xs ys = true → charListLE ys xs = true → xs = ys := by
  intro xs
  induction xs with
  | nil =>
    intro ys _ h₂
    cases ys with
    | nil => rfl
    | cons b ys => simp [charListLE] at h₂
  | cons a xs ih =>
    intro ys h₁ h₂
    cases ys with
    | nil => simp [charListLE] at h₁
    | cons b ys =>
      by_cases hab : a < b
      · simp [charListLE, hab, asymm hab] at h₂
      · by_cases hba : b < a
        · simp [charListLE, hab, hba] at h₁
        · have hab' : a = b := le_antisymm (not_lt.mp hba) (not_lt.mp hab)
          subst hab'
          simp only [charListLE, lt_irrefl, if_neg (lt_irrefl a), if_false] at h₁ h₂
          rw [ih ys h₁ h₂]

/-- Name comparison on catalog name columns (`strcmp` order). -/
def nameLE (s t : String) : Bool := charListLE s.data t.data

theorem nameLE_antisymm {s t : String} (h₁ : nameLE s t = true) (h₂ : nameLE t s = true) :
    s = t := by
  cases s with
  | mk xs =>
    cases t with
    | mk ys => exact congrArg String.mk (charListLE_antisymm xs ys h₁ h₂)

/-- `pg_cmdtrigger.ctgtype` values: `CMD_TRIGGER_FIRED_BEFORE` 'B',
`CMD_TRIGGER_FIRED_AFTER` 'A', `CMD_TRIGGER_FIRED_INSTEAD` 'I'
(commands/cmdtrigger.h:28-30). -/
inductive CmdTrigType where
  | fired_before
  | fired_after
  | fired_instead
deriving DecidableEq, Repr

/-- `pg_cmdtrigger.ctgenabled` values, as in `pg_trigger`:
`TRIGGER_FIRES_ALWAYS` 'A' (the unconditional ENABLED state),
`TRIGGER_DISABLED` 'D', `TRIGGER_FIRES_ON_ORIGIN` 'O',
`TRIGGER_FIRES_ON_REPLICA` 'R'. -/
inductive TrigEnabled where
  | fires_always
  | disabled
  | fires_on_origin
  | fires_on_replica
deriving DecidableEq, Repr

/-- The process-wide `SessionReplicationRole` setting:
`SESSION_REPLICATION_ROLE_ORIGIN`, `_LOCAL`, `_REPLICA`. -/
inductive ReplRole where
  | origin
  | localSession
  | replica
deriving DecidableEq, Repr

/-- One `pg_cmdtrigger` row, with the columns read through the
`Anum_pg_cmdtrigger_*` attribute numbers in cmdtrigger.c, plus the
system oid column returned by `HeapTupleGetOid`. -/
structure CmdTrigger where
  oid : Nat
  ctgcommand : String
  ctgname : String
  ctgfoid : Nat
  ctgtype : CmdTrigType
  ctgenabled : TrigEnabled
deriving DecidableEq, Repr

/-- `InvalidOid` (0). -/
def InvalidOid : Nat := 0

/-- Type oid of `void` (`VOIDOID` in pg_type.h). -/
def VOIDOID : Nat := 2278

/-- Type oid of `boolean` (`BOOLOID` in pg_type.h). -/
def BOOLOID : Nat := 16

/-- The enabled-state / replication-role filter at the top of the scan
loop of `ListCommandTriggers` (cmdtrigger.c:467-480): a `DISABLED`
trigger is always skipped; under the replica session role a
`FIRES_ON_ORIGIN` trigger is skipped; under an origin or local role a
`FIRES_ON_REPLICA` trigger is skipped. `true` means the row is kept. -/
def cmdtrigger_fires (role : ReplRole) (e : TrigEnabled) : Bool :=
  if e = TrigEnabled.disabled then false
  else if role = ReplRole.replica then !(e = TrigEnabled.fires_on_origin)
  else !(e = TrigEnabled.fires_on_replica)

/-- Name order on catalog rows, the order of the
`CmdTriggerCommandNameIndexId` index within one `ctgcommand` key. -/
def byName (a b : CmdTrigger) : Prop := nameLE a.ctgname b.ctgname = true

instance : DecidableRel byName :=
  fun a b => inferInstanceAs (Decidable (nameLE a.ctgname b.ctgname = true))

instance : IsTotal CmdTrigger byName :=
  ⟨fun a b => charListLE_total a.ctgname.data b.ctgname.data⟩

instance : IsTrans CmdTrigger byName :=
  ⟨fun a b c h h' => charListLE_trans a.ctgname.data b.ctgname.data c.ctgname.data h h'⟩

/-- Strict name order: name order together with distinct names. -/
def byNameStrict (a b : CmdTrigger) : Prop :=
  byName a b ∧ a.ctgname ≠ b.ctgname

instance : IsAntisymm CmdTrigger byNameStrict :=
  ⟨fun _ _ h h' => absurd (nameLE_antisymm h.1 h'.1) h.2⟩

/-- `systable_beginscan_ordered` over `CmdTriggerCommandNameIndexId`
with one equality key on `ctgcommand` (cmdtrigger.c:456-461): the
catalog collaborator yields the rows whose `ctgcommand` equals the
requested tag, in `ctgname` order. -/
def orderedCommandScan (rows : List CmdTrigger) (tag : String) : List CmdTrigger :=
  List.insertionSort byName (rows.filter (fun t => t.ctgcommand == tag))

/-- The scan loop of `ListCommandTriggers` (cmdtrigger.c:463-493):
for each row passing `cmdtrigger_fires`, append `ctgfoid` to the
`before` list when `ctgtype` is 'B', to the `after` list when 'A'
(the switch has no case for 'I', so an INSTEAD row lands in neither
list), and increment `count` for every non-skipped row.
Returns (before, after, count). -/
def listCmdTriggersLoop (role : ReplRole) : List CmdTrigger → List Nat × List Nat × Nat
  | [] => ([], [], 0)
  | t :: rest =>
    if cmdtrigger_fires role t.ctgenabled then
      let r := listCmdTriggersLoop role rest
      match t.ctgtype with
      | CmdTrigType.fired_before => (t.ctgfoid :: r.1, r.2.1, r.2.2 + 1)
      | CmdTrigType.fired_after => (r.1, t.ctgfoid :: r.2.1, r.2.2 + 1)
      | CmdTrigType.fired_instead => (r.1, r.2.1, r.2.2 + 1)
    else listCmdTriggersLoop role rest

/-- `ListCommandTriggers` (cmdtrigger.c:442-500): fills `cmd->before`
and `cmd->after` from the ordered catalog scan for `cmd->tag` and
returns `count > 0`.  Result: (before, after, count > 0). -/
def ListCommandTriggers (role : ReplRole) (rows : List CmdTrigger) (tag : String) :
    List Nat × List Nat × Bool :=
  let r := listCmdTriggersLoop role (orderedCommandScan rows tag)
  (r.1, r.2.1, decide (0 < r.2.2))

/-- The sequence of catalog rows that survive the scan filter of
`ListCommandTriggers` for one command tag, in scan (= name) order. -/
def resolvedRows (role : ReplRole) (rows : List CmdTrigger) (tag : String) :
    List CmdTrigger :=
  (orderedCommandScan rows tag).filter (fun t => cmdtrigger_fires role t.ctgenabled)

/-- The surviving rows of one firing phase, in firing order. -/
def resolvedPhase (role : ReplRole) (rows : List CmdTrigger) (tag : String)
    (ty : CmdTrigType) : List CmdTrigger :=
  (resolvedRows role rows tag).filter (fun t => t.ctgtype == ty)

/-- `call_cmdtrigger_procedure` (cmdtrigger.c:502-570): invokes the
procedure and interprets its result—`if (!fcinfo.isnull &&
DatumGetBool(result) == false) return false; return true;`
(cmdtrigger.c:567-569).  A NULL result or a `true` datum yields
`true`, only a non-null `false` datum yields `false`. -/
def call_cmdtrigger_procedure (results : Nat → Option Bool) (proc : Nat) : Bool :=
  match results proc with
  | none => true
  | some b => b

/-- `exec_command_triggers_internal` (cmdtrigger.c:578-588): the
`foreach` loop calls `call_cmdtrigger_procedure` on every procedure of
the list; the boolean the call returns is discarded (`_res` below) and
the loop never stops early.  The value of this embedding is the
execution trace: the procedures invoked, in order. -/
def exec_command_triggers_internal (results : Nat → Option Bool) :
    List Nat → List Nat
  | [] => []
  | p :: procs =>
    let _res := call_cmdtrigger_procedure results p
    p :: exec_command_triggers_internal results procs

/-- `CommandContextData` (fields used by cmdtrigger.c): the command
tag, lazily-filled object identity fields, and the resolved `before`
and `after` procedure lists. -/
structure CommandContext where
  tag : String
  objectId : Nat
  objectname : Option String
  schemaname : Option String
  before : List Nat
  after : List Nat
deriving DecidableEq, Repr

/-- `ExecBeforeCommandTriggers` (cmdtrigger.c:691-703): runs
`exec_command_triggers_internal` on `cmd->before` (an empty list runs
nothing) and returns void—there is no cancellation outcome reported to
the caller.  Its value here is the execution trace. -/
def ExecBeforeCommandTriggers (results : Nat → Option Bool) (cmd : CommandContext) :
    List Nat :=
  exec_command_triggers_internal results cmd.before

/-- `ExecAfterCommandTriggers` (cmdtrigger.c:705-717): runs
`exec_command_triggers_internal` on `cmd->after`. -/
def ExecAfterCommandTriggers (results : Nat → Option Bool) (cmd : CommandContext) :
    List Nat :=
  exec_command_triggers_internal results cmd.after

/-- Modelled from the spec: the BEFORE pass of `fireBeforeOrInsteadOf`
(spec §4.3)—`ExecBeforeOrInsteadOfCommandTriggers` is declared in
commands/cmdtrigger.h:39 but its body is not under src/.  Execute
BEFORE procedures in firing order, stopping at the first one whose
call result is `false`; the pass returns the trace of executed
procedures and the `proceed` outcome (`false` exactly when some
procedure vetoed). -/
def fireBefore_spec (results : Nat → Option Bool) : List Nat → List Nat × Bool
  | [] => ([], true)
  | p :: procs =>
    if call_cmdtrigger_procedure results p then
      let r := fireBefore_spec results procs
      (p :: r.1, r.2)
    else ([p], false)

/-- Error conditions raised by the registration layer, named by the
`ERRCODE_*` each `ereport(ERROR, ...)` in cmdtrigger.c uses. -/
inductive CmdTrigError where
  | insufficientPrivilege
  | duplicateObject
  | featureNotSupported
  | invalidObjectDefinition
  | undefinedObject
deriving DecidableEq, Repr

/-- `check_cmdtrigger_name` (cmdtrigger.c:401-423): scan over the
`CmdTriggerNameIndexId` index with a single equality key on `ctgname`
—the command is not part of the key—raising `ERRCODE_DUPLICATE_OBJECT`
when any row matches.  `true` means a duplicate exists. -/
def check_cmdtrigger_name (trigname : String) (rows : List CmdTrigger) : Bool :=
  rows.any (fun t => t.ctgname == trigname)

/-- `InsertCmdTriggerTuple` (cmdtrigger.c:67-113): form the new
`pg_cmdtrigger` row with `ctgenabled` hard-coded to
`TRIGGER_FIRES_ON_ORIGIN` (cmdtrigger.c:86) and insert it; the row oid
is assigned by the external storage engine and passed in here. -/
def InsertCmdTriggerTuple (rows : List CmdTrigger) (newOid : Nat)
    (command trigname : String) (funcoid : Nat) (ctgtype : CmdTrigType) :
    List CmdTrigger :=
  rows ++ [⟨newOid, command, trigname, funcoid, ctgtype, TrigEnabled.fires_on_origin⟩]

/-- `CreateCmdTrigger` (cmdtrigger.c:118-206).  The function lookup
(`LookupFuncName`) and return-type fetch (`get_func_rettype`) are
external catalog collaborators, so `funcoid` and `funcrettype` are
inputs.  In source order: the superuser check, the duplicate-name
check, the AFTER VACUUM and AFTER CLUSTER errors, the AFTER CREATE
INDEX and REINDEX warnings, the return-type check (`funcrettype !=
VOIDOID` is an error for every timing), then the insert.  Returns the
new catalog and the warnings emitted. -/
def CreateCmdTrigger (superuser : Bool) (rows : List CmdTrigger)
    (trigname command : String) (timing : CmdTrigType)
    (newOid funcoid funcrettype : Nat) :
    Except CmdTrigError (List CmdTrigger × List String) :=
  if !superuser then Except.error CmdTrigError.insufficientPrivilege
  else if check_cmdtrigger_name trigname rows then
    Except.error CmdTrigError.duplicateObject
  else if timing == CmdTrigType.fired_after && command == "VACUUM" then
    Except.error CmdTrigError.featureNotSupported
  else if timing == CmdTrigType.fired_after && command == "CLUSTER" then
    Except.error CmdTrigError.featureNotSupported
  else
    let warns₁ :=
      if timing == CmdTrigType.fired_after && command == "CREATE INDEX" then
        ["AFTER CREATE INDEX CONCURRENTLY triggers are not supported"]
      else []
    let warns₂ :=
      if command == "REINDEX" then
        ["REINDEX DATABASE triggers are not supported"]
      else []
    if funcrettype != VOIDOID then
      Except.error CmdTrigError.invalidObjectDefinition
    else
      Except.ok (InsertCmdTriggerTuple rows newOid command trigname funcoid timing,
                 warns₁ ++ warns₂)

/-- `get_cmdtrigger_oid` (cmdtrigger.c:354-395): scan by `ctgname`
alone; when no row matches, raise `ERRCODE_UNDEFINED_OBJECT` unless
`missing_ok`, in which case return `InvalidOid`.  The catalog is not
mutated either way. -/
def get_cmdtrigger_oid (rows : List CmdTrigger) (trigname : String)
    (missing_ok : Bool) : Except CmdTrigError Nat :=
  match rows.find? (fun t => t.ctgname == trigname) with
  | some t => Except.ok t.oid
  | none =>
    if missing_ok then Except.ok InvalidOid
    else Except.error CmdTrigError.undefinedObject

/-- The single-tuple update at the end of `RenameCmdTrigger`
(cmdtrigger.c:339-342): rename the first row whose `ctgname` matches. -/
def renameFirst (trigname newname : String) : List CmdTrigger → List CmdTrigger
  | [] => []
  | t :: rest =>
    if t.ctgname == trigname then { t with ctgname := newname } :: rest
    else t :: renameFirst trigname newname rest

/-- `RenameCmdTrigger` (cmdtrigger.c:296-346): superuser check, then
`check_cmdtrigger_name` on the new name, then the scan by the old
`ctgname`; a missing trigger raises `ERRCODE_UNDEFINED_OBJECT`
unconditionally—the function takes no missing-ok flag. -/
def RenameCmdTrigger (superuser : Bool) (rows : List CmdTrigger)
    (trigname newname : String) : Except CmdTrigError (List CmdTrigger) :=
  if !superuser then Except.error CmdTrigError.insufficientPrivilege
  else if check_cmdtrigger_name newname rows then
    Except.error CmdTrigError.duplicateObject
  else if rows.any (fun t => t.ctgname == trigname) then
    Except.ok (renameFirst trigname newname rows)
  else Except.error CmdTrigError.undefinedObject

/-- `InitCommandContext` (cmdtrigger.c:600-624): fill the context with
the real command tag and empty identity fields; when
`list_any_triggers` is set, swap `cmd->tag` to `"ANY"` for the
duration of `ListCommandTriggers` and restore it afterwards, so the
procedure lists come from the wildcard class while the stored tag
stays the real one. -/
def InitCommandContext (role : ReplRole) (rows : List CmdTrigger)
    (stmtTag : String) (list_any_triggers : Bool) : CommandContext :=
  let r :=
    if list_any_triggers then ListCommandTriggers role rows "ANY"
    else ListCommandTriggers role rows stmtTag
  { tag := stmtTag
    objectId := InvalidOid
    objectname := none
    schemaname := none
    before := r.1
    after := r.2.1 }

/-- `EVENT_COMMAND_TRIGGER_KEY` (evtcache.c:69-70): the 32-bit hash key
`(command << 16) + event`. -/
def EVENT_COMMAND_TRIGGER_KEY (command event : Nat) : Nat :=
  (command * 65536 + event) % 4294967296

/-- Modelled from the spec: the wildcard command identifier `E_ANY` is
declared in utils/evtcache.h, which is not under src/; its concrete
value is immaterial to the properties proved here. -/
def E_ANY : Nat := 1

/-- `EventCommandTriggers` (utils/evtcache.h, as populated by
evtcache.c:257-290): the wildcard-class and specific-class function
lists are carried in two separate fields. -/
structure EventCommandTriggers where
  event : Nat
  command : Nat
  any_triggers : List Nat
  cmd_triggers : List Nat
deriving DecidableEq, Repr

/-- `get_event_triggers` (evtcache.c:257-290): both lists start `NIL`;
the `E_ANY` bucket and the specific-command bucket are looked up under
their respective keys and stored in the two separate fields, never
concatenated.  The cache hash table is embedded as an association
list from key to function-oid list. -/
def get_event_triggers (cache : List (Nat × List Nat)) (event command : Nat) :
    EventCommandTriggers :=
  let anyFuncs :=
    match cache.lookup (EVENT_COMMAND_TRIGGER_KEY E_ANY event) with
    | some fs => fs
    | none => []
  let cmdFuncs :=
    match cache.lookup (EVENT_COMMAND_TRIGGER_KEY command event) with
    | some fs => fs
    | none => []
  { event := event, command := command,
    any_triggers := anyFuncs, cmd_triggers := cmdFuncs }

/-- Did the registration succeed without raising an error and without
emitting any warning? -/
def acceptedSilently (r : Except CmdTrigError (List CmdTrigger × List String)) : Bool :=
  match r with
  | Except.ok (_, []) => true
  | _ => false

/-- The (timing, command) registrations cmdtrigger.c:161-194 declares
restricted: AFTER triggers on VACUUM and CLUSTER (error), AFTER on
CREATE INDEX (warning about the concurrent variant), and BEFORE/AFTER
on REINDEX (warning about REINDEX DATABASE). -/
def restrictedRegistrations : List (CmdTrigType × String) :=
  [(CmdTrigType.fired_after, "VACUUM"),
   (CmdTrigType.fired_after, "CLUSTER"),
   (CmdTrigType.fired_after, "CREATE INDEX"),
   (CmdTrigType.fired_before, "REINDEX"),
   (CmdTrigType.fired_after, "REINDEX")]

theorem listCmdTriggersLoop_before (role : ReplRole) (ts : List CmdTrigger) :
    (listCmdTriggersLoop role ts).1 =
      ((ts.filter (fun t => cmdtrigger_fires role t.ctgenabled)).filter
        (fun t => t.ctgtype == CmdTrigType.fired_before)).map CmdTrigger.ctgfoid := by
  induction ts with
  | nil => rfl
  | cons t rest ih =>
    by_cases hf : cmdtrigger_fires role t.ctgenabled
    · cases hty : t.ctgtype <;>
        simp [listCmdTriggersLoop, hf, hty, List.filter_cons, ih]
    · simp [listCmdTriggersLoop, hf, List.filter_cons, ih]

theorem listCmdTriggersLoop_after (role : ReplRole) (ts : List CmdTrigger) :
    (listCmdTriggersLoop role ts).2.1 =
      ((ts.filter (fun t => cmdtrigger_fires role t.ctgenabled)).filter
        (fun t => t.ctgtype == CmdTrigType.fired_after)).map CmdTrigger.ctgfoid := by
  induction ts with
  | nil => rfl
  | cons t rest ih =>
    by_cases hf : cmdtrigger_fires role t.ctgenabled
    · cases hty : t.ctgtype <;>
        simp [listCmdTriggersLoop, hf, hty, List.filter_cons, ih]
    · simp [listCmdTriggersLoop, hf, List.filter_cons, ih]

theorem ListCommandTriggers_fst (role : ReplRole) (rows : List CmdTrigger) (tag : String) :
    (ListCommandTriggers role rows tag).1 =
      (resolvedPhase role rows tag CmdTrigType.fired_before).map CmdTrigger.ctgfoid := by
  simp [ListCommandTriggers, resolvedPhase, resolvedRows, listCmdTriggersLoop_before]

theorem ListCommandTriggers_snd (role : ReplRole) (rows : List CmdTrigger) (tag : String) :
    (ListCommandTriggers role rows tag).2.1 =
      (resolvedPhase role rows tag CmdTrigType.fired_after).map CmdTrigger.ctgfoid := by
  simp [ListCommandTriggers, resolvedPhase, resolvedRows, listCmdTriggersLoop_after]

theorem sorted_orderedCommandScan (rows : List CmdTrigger) (tag : String) :
    List.Sorted byName (orderedCommandScan rows tag) :=
  List.sorted_insertionSort byName _

theorem mem_resolvedRows (role : ReplRole) (rows : List CmdTrigger) (tag : String)
    (t : CmdTrigger) :
    t ∈ resolvedRows role rows tag ↔
      t ∈ rows ∧ t.ctgcommand = tag ∧ cmdtrigger_fires role t.ctgenabled = true := by
  unfold resolvedRows orderedCommandScan
  rw [List.mem_filter, (List.perm_insertionSort byName _).mem_iff, List.mem_filter]
  simp [and_assoc]

theorem mem_resolvedPhase (role : ReplRole) (rows : List CmdTrigger) (tag : String)
    (ty : CmdTrigType) (t : CmdTrigger) :
    t ∈ resolvedPhase role rows tag ty ↔
      t ∈ resolvedRows role rows tag ∧ t.ctgtype = ty := by
  simp [resolvedPhase, List.mem_filter]

theorem nodup_names_scan (rows : List CmdTrigger) (tag : String)
    (h : (rows.map CmdTrigger.ctgname).Nodup) :
    ((orderedCommandScan rows tag).map CmdTrigger.ctgname).Nodup := by
  have h₁ : ((rows.filter (fun t => t.ctgcommand == tag)).map CmdTrigger.ctgname).Nodup :=
    h.sublist ((List.filter_sublist rows).map CmdTrigger.ctgname)
  exact (((List.perm_insertionSort byName _).map CmdTrigger.ctgname).nodup_iff).mpr h₁

theorem scan_pairwise_strict (rows : List CmdTrigger) (tag : String)
    (h : (rows.map CmdTrigger.ctgname).Nodup) :
    List.Pairwise byNameStrict (orderedCommandScan rows tag) := by
  have hs : List.Pairwise byName (orderedCommandScan rows tag) :=
    sorted_orderedCommandScan rows tag
  have hne : List.Pairwise (fun a b : CmdTrigger => a.ctgname ≠ b.ctgname)
      (orderedCommandScan rows tag) :=
    (List.pairwise_map).mp (nodup_names_scan rows tag h)
  exact hs.and hne

theorem scan_perm_eq (rows₁ rows₂ : List CmdTrigger) (tag : String)
    (hperm : rows₁.Perm rows₂) (hnodup : (rows₁.map CmdTrigger.ctgname).Nodup) :
    orderedCommandScan rows₁ tag = orderedCommandScan rows₂ tag := by
  have hp : (orderedCommandScan rows₁ tag).Perm (orderedCommandScan rows₂ tag) := by
    unfold orderedCommandScan
    exact ((List.perm_insertionSort byName _).trans
      (hperm.filter (fun t => t.ctgcommand == tag))).trans
      (List.perm_insertionSort byName _).symm
  have hnodup₂ : (rows₂.map CmdTrigger.ctgname).Nodup :=
    ((hperm.map CmdTrigger.ctgname).nodup_iff).mp hnodup
  exact List.eq_of_perm_of_sorted hp
    (scan_pairwise_strict rows₁ tag hnodup) (scan_pairwise_strict rows₂ tag hnodup₂)

end CmdTrig

open CmdTrig

/-- C1: the claim says a BEFORE procedure returning `false` stops the
remaining BEFORE procedures of the pass and yields `proceed = false`.
The code computes the veto boolean in `call_cmdtrigger_procedure` but
`exec_command_triggers_internal` discards it: with procedure 1
returning a non-null `false`, the pass still executes procedure 2, and
`ExecBeforeCommandTriggers` returns void, reporting no cancellation
outcome at all—whereas the spec-modelled pass stops after procedure 1
with `proceed = false`. -/
theorem before_pass_executes_all_even_after_false :
    call_cmdtrigger_procedure (fun p => if p = 1 then some false else some true) 1 = false
    ∧ exec_command_triggers_internal
        (fun p => if p = 1 then some false else some true) [1, 2] = [1, 2]
    ∧ ExecBeforeCommandTriggers
        (fun p => if p = 1 then some false else some true)
        { tag := "CREATE TABLE", objectId := 0, objectname := none,
          schemaname := none, before := [1, 2], after := [] } = [1, 2]
    ∧ fireBefore_spec
        (fun p => if p = 1 then some false else some true) [1, 2] = ([1], false) := by
  refine ⟨rfl, rfl, rfl, rfl⟩

/-- C2: the claim says that when an INSTEAD_OF trigger is registered
for a class, the firing pass executes every INSTEAD_OF procedure
exactly once with `proceed = false` and no BEFORE procedure fires.  In
the code, the switch of `ListCommandTriggers` has no case for
`CMD_TRIGGER_FIRED_INSTEAD`: with an INSTEAD trigger (procedure 10)
and a BEFORE trigger (procedure 20) both registered for CREATE TABLE,
the resolved lists are `before = [20]`, `after = []`—the INSTEAD
procedure lands in no firing list (it can never execute) while the
BEFORE procedure does fire, and the count still registers both rows. -/
theorem instead_of_triggers_resolved_to_no_list :
    ListCommandTriggers ReplRole.origin
      [⟨1, "CREATE TABLE", "a_instead", 10, CmdTrigType.fired_instead,
         TrigEnabled.fires_always⟩,
       ⟨2, "CREATE TABLE", "b_check", 20, CmdTrigType.fired_before,
         TrigEnabled.fires_always⟩]
      "CREATE TABLE" = ([20], [], true) := by
  decide

/-- C4: the claim says registration fails with InvalidReturnContract
exactly when the declared return type violates the phase contract
(boolean for BEFORE/INSTEAD_OF, nothing for AFTER).  The code's check
(cmdtrigger.c:196-200) demands `VOIDOID` for every timing: a BEFORE
trigger whose procedure is declared to return `boolean` is rejected
with `ERRCODE_INVALID_OBJECT_DEFINITION`, while the same registration
with a void-returning procedure is accepted. -/
theorem boolean_before_procedure_rejected :
    CreateCmdTrigger true [] "check_create" "CREATE TABLE"
      CmdTrigType.fired_before 1 90 BOOLOID
      = Except.error CmdTrigError.invalidObjectDefinition
    ∧ CreateCmdTrigger true [] "check_create" "CREATE TABLE"
        CmdTrigType.fired_before 1 90 VOIDOID
      = Except.ok ([⟨1, "CREATE TABLE", "check_create", 90,
                     CmdTrigType.fired_before, TrigEnabled.fires_on_origin⟩], []) := by
  refine ⟨rfl, rfl⟩

/-- C6: the claim says DuplicateName is raised if and only if the same
name exists for the same command class, so the same name under a
different class succeeds.  `check_cmdtrigger_name` scans the name
index with a single key on `ctgname`—the command is not part of the
lookup—so with a trigger named "trg" on VACUUM already in the catalog,
registering "trg" on CREATE TABLE is rejected with
`ERRCODE_DUPLICATE_OBJECT`. -/
theorem duplicate_name_check_ignores_command_class :
    check_cmdtrigger_name "trg"
      [⟨1, "VACUUM", "trg", 5, CmdTrigType.fired_before, TrigEnabled.fires_on_origin⟩]
      = true
    ∧ CreateCmdTrigger true
        [⟨1, "VACUUM", "trg", 5, CmdTrigType.fired_before, TrigEnabled.fires_on_origin⟩]
        "trg" "CREATE TABLE" CmdTrigType.fired_before 2 6 VOIDOID
      = Except.error CmdTrigError.duplicateObject := by
  refine ⟨rfl, rfl⟩

/-- C5: a trigger row is in the resolved firing list of a phase for a
command tag exactly when it is registered for that tag with that
phase and passes the enabled-state filter, and the filter behaves as
the claim states: DISABLED rows never pass, ENABLED
(`TRIGGER_FIRES_ALWAYS`) rows always pass, FIRES_ON_REPLICA rows pass
if and only if the session replication role is replica, and
FIRES_ON_ORIGIN rows pass if and only if the role is origin or local. -/
theorem resolved_list_enabled_state_filter (role : ReplRole) (rows : List CmdTrigger)
    (tag : String) (ty : CmdTrigType) (t : CmdTrigger) :
    (t ∈ resolvedPhase role rows tag ty ↔
      t ∈ rows ∧ t.ctgcommand = tag ∧ t.ctgtype = ty
        ∧ cmdtrigger_fires role t.ctgenabled = true)
    ∧ cmdtrigger_fires role TrigEnabled.disabled = false
    ∧ cmdtrigger_fires role TrigEnabled.fires_always = true
    ∧ (cmdtrigger_fires role TrigEnabled.fires_on_replica = true ↔ role = ReplRole.replica)
    ∧ (cmdtrigger_fires role TrigEnabled.fires_on_origin = true ↔ role ≠ ReplRole.replica) := by
  refine ⟨?_, ?_, ?_, ?_, ?_⟩
  · rw [mem_resolvedPhase, mem_resolvedRows]
    tauto
  · cases role <;> decide
  · cases role <;> decide
  · cases role <;> decide
  · cases role <;> decide

/-- C3: the resolved firing lists are the same for any two catalogs
that hold the same trigger rows in different registration orders
(given the catalog invariant that trigger names are distinct), each
phase's resolved row sequence is sorted lexicographically by trigger
name, and the procedure lists fire in exactly that sequence's order. -/
theorem firing_order_lexicographic_by_name (role : ReplRole)
    (rows₁ rows₂ : List CmdTrigger) (tag : String) (ty : CmdTrigType)
    (hperm : rows₁.Perm rows₂)
    (hnodup : (rows₁.map CmdTrigger.ctgname).Nodup) :
    ListCommandTriggers role rows₁ tag = ListCommandTriggers role rows₂ tag
    ∧ List.Pairwise byName (resolvedPhase role rows₁ tag ty)
    ∧ (ListCommandTriggers role rows₁ tag).1 =
        (resolvedPhase role rows₁ tag CmdTrigType.fired_before).map CmdTrigger.ctgfoid
    ∧ (ListCommandTriggers role rows₁ tag).2.1 =
        (resolvedPhase role rows₁ tag CmdTrigType.fired_after).map CmdTrigger.ctgfoid := by
  have hscan := scan_perm_eq rows₁ rows₂ tag hperm hnodup
  refine ⟨?_, ?_, ListCommandTriggers_fst role rows₁ tag, ListCommandTriggers_snd role rows₁ tag⟩
  · simp [ListCommandTriggers, hscan]
  · have hs : List.Pairwise byName (orderedCommandScan rows₁ tag) :=
      sorted_orderedCommandScan rows₁ tag
    exact ((hs.sublist (List.filter_sublist _)).sublist (List.filter_sublist _))

/-- Witness for C3: triggers "b_check" and "a_check" on CREATE TABLE,
registered in that order and in the reverse order, resolve to the same
name-sorted firing lists. -/
theorem firing_order_lexicographic_by_name_witness :
    ListCommandTriggers ReplRole.origin
        [⟨1, "CREATE TABLE", "b_check", 20, CmdTrigType.fired_before,
           TrigEnabled.fires_always⟩,
         ⟨2, "CREATE TABLE", "a_check", 10, CmdTrigType.fired_before,
           TrigEnabled.fires_always⟩] "CREATE TABLE"
      = ListCommandTriggers ReplRole.origin
        [⟨2, "CREATE TABLE", "a_check", 10, CmdTrigType.fired_before,
           TrigEnabled.fires_always⟩,
         ⟨1, "CREATE TABLE", "b_check", 20, CmdTrigType.fired_before,
           TrigEnabled.fires_always⟩] "CREATE TABLE"
    ∧ List.Pairwise byName (resolvedPhase ReplRole.origin
        [⟨1, "CREATE TABLE", "b_check", 20, CmdTrigType.fired_before,
           TrigEnabled.fires_always⟩,
         ⟨2, "CREATE TABLE", "a_check", 10, CmdTrigType.fired_before,
           TrigEnabled.fires_always⟩] "CREATE TABLE" CmdTrigType.fired_before)
    ∧ (ListCommandTriggers ReplRole.origin
        [⟨1, "CREATE TABLE", "b_check", 20, CmdTrigType.fired_before,
           TrigEnabled.fires_always⟩,
         ⟨2, "CREATE TABLE", "a_check", 10, CmdTrigType.fired_before,
           TrigEnabled.fires_always⟩] "CREATE TABLE").1 =
        (resolvedPhase ReplRole.origin
          [⟨1, "CREATE TABLE", "b_check", 20, CmdTrigType.fired_before,
             TrigEnabled.fires_always⟩,
           ⟨2, "CREATE TABLE", "a_check", 10, CmdTrigType.fired_before,
             TrigEnabled.fires_always⟩] "CREATE TABLE"
          CmdTrigType.fired_before).map CmdTrigger.ctgfoid
    ∧ (ListCommandTriggers ReplRole.origin
        [⟨1, "CREATE TABLE", "b_check", 20, CmdTrigType.fired_before,
           TrigEnabled.fires_always⟩,
         ⟨2, "CREATE TABLE", "a_check", 10, CmdTrigType.fired_before,
           TrigEnabled.fires_always⟩] "CREATE TABLE").2.1 =
        (resolvedPhase ReplRole.origin
          [⟨1, "CREATE TABLE", "b_check", 20, CmdTrigType.fired_before,
             TrigEnabled.fires_always⟩,
           ⟨2, "CREATE TABLE", "a_check", 10, CmdTrigType.fired_before,
             TrigEnabled.fires_always⟩] "CREATE TABLE"
          CmdTrigType.fired_after).map CmdTrigger.ctgfoid :=
  firing_order_lexicographic_by_name ReplRole.origin _ _ "CREATE TABLE"
    CmdTrigType.fired_before (by decide) (by decide)

/-- C7: for BEFORE and AFTER timings, registration of a trigger on a
restricted (timing, command) pair is never accepted silently—it either
raises an error or succeeds with a warning—and every unrestricted pair
is accepted silently; in particular AFTER triggers on VACUUM and
CLUSTER (the commands that commit their work incrementally) are
rejected with `ERRCODE_FEATURE_NOT_SUPPORTED`. -/
theorem restricted_classes_never_silent (timing : CmdTrigType) (command : String)
    (h : timing ≠ CmdTrigType.fired_instead) :
    ((timing, command) ∈ restrictedRegistrations ↔
      acceptedSilently (CreateCmdTrigger true [] "trg" command timing 1 9 VOIDOID) = false)
    ∧ CreateCmdTrigger true [] "trg" "VACUUM" CmdTrigType.fired_after 1 9 VOIDOID
        = Except.error CmdTrigError.featureNotSupported
    ∧ CreateCmdTrigger true [] "trg" "CLUSTER" CmdTrigType.fired_after 1 9 VOIDOID
        = Except.error CmdTrigError.featureNotSupported := by
  refine ⟨?_, rfl, rfl⟩
  cases timing with
  | fired_instead => exact absurd rfl h
  | fired_before =>
    by_cases hc : command = "REINDEX"
    · subst hc; decide
    · simp [restrictedRegistrations, CreateCmdTrigger, check_cmdtrigger_name,
        acceptedSilently, hc]
  | fired_after =>
    by_cases h₁ : command = "VACUUM"
    · subst h₁; decide
    · by_cases h₂ : command = "CLUSTER"
      · subst h₂; decide
      · by_cases h₃ : command = "CREATE INDEX"
        · subst h₃; decide
        · by_cases h₄ : command = "REINDEX"
          · subst h₄; decide
          · simp [restrictedRegistrations, CreateCmdTrigger, check_cmdtrigger_name,
              acceptedSilently, h₁, h₂, h₃, h₄]

/-- Witness for C7: instantiated at AFTER VACUUM. -/
theorem restricted_classes_never_silent_witness :
    ((CmdTrigType.fired_after, "VACUUM") ∈ restrictedRegistrations ↔
      acceptedSilently (CreateCmdTrigger true [] "trg" "VACUUM"
        CmdTrigType.fired_after 1 9 VOIDOID) = false)
    ∧ CreateCmdTrigger true [] "trg" "VACUUM" CmdTrigType.fired_after 1 9 VOIDOID
        = Except.error CmdTrigError.featureNotSupported
    ∧ CreateCmdTrigger true [] "trg" "CLUSTER" CmdTrigType.fired_after 1 9 VOIDOID
        = Except.error CmdTrigError.featureNotSupported :=
  restricted_classes_never_silent CmdTrigType.fired_after "VACUUM" (by decide)

/-- C8: when no trigger named `trigname` exists, `get_cmdtrigger_oid`
(the lookup used by drop) raises `ERRCODE_UNDEFINED_OBJECT` with
`missing_ok = false` and returns `InvalidOid` with `missing_ok = true`
(it mutates nothing—it is a pure lookup), and `RenameCmdTrigger`
raises `ERRCODE_UNDEFINED_OBJECT`; when a matching trigger exists, the
lookup returns its row oid and raises no error for either flag
value. -/
theorem missing_trigger_lookup_and_rename (rows : List CmdTrigger)
    (trigname newname : String)
    (habsent : ∀ t ∈ rows, t.ctgname ≠ trigname)
    (hfresh : ∀ t ∈ rows, t.ctgname ≠ newname)
    (rows' : List CmdTrigger) (u : CmdTrigger) (missing_ok : Bool)
    (hfound : rows'.find? (fun t => t.ctgname == trigname) = some u) :
    get_cmdtrigger_oid rows trigname false = Except.error CmdTrigError.undefinedObject
    ∧ get_cmdtrigger_oid rows trigname true = Except.ok InvalidOid
    ∧ RenameCmdTrigger true rows trigname newname
        = Except.error CmdTrigError.undefinedObject
    ∧ get_cmdtrigger_oid rows' trigname missing_ok = Except.ok u.oid := by
  have hnone : rows.find? (fun t => t.ctgname == trigname) = none := by
    rw [List.find?_eq_none]
    intro t ht
    simpa using habsent t ht
  have hany : rows.any (fun t => t.ctgname == trigname) = false := by
    rw [List.any_eq_false]
    intro t ht
    simpa using habsent t ht
  have hanyNew : rows.any (fun t => t.ctgname == newname) = false := by
    rw [List.any_eq_false]
    intro t ht
    simpa using hfresh t ht
  refine ⟨?_, ?_, ?_, ?_⟩
  · simp [get_cmdtrigger_oid, hnone]
  · simp [get_cmdtrigger_oid, hnone]
  · simp [RenameCmdTrigger, check_cmdtrigger_name, hanyNew, hany]
  · simp [get_cmdtrigger_oid, hfound]

/-- Witness for C8: empty catalog for the missing cases; a catalog
holding trigger "t" with row oid 7 for the found case. -/
theorem missing_trigger_lookup_and_rename_witness :
    get_cmdtrigger_oid [] "t" false = Except.error CmdTrigError.undefinedObject
    ∧ get_cmdtrigger_oid [] "t" true = Except.ok InvalidOid
    ∧ RenameCmdTrigger true [] "t" "u" = Except.error CmdTrigError.undefinedObject
    ∧ get_cmdtrigger_oid
        [⟨7, "VACUUM", "t", 5, CmdTrigType.fired_before, TrigEnabled.fires_on_origin⟩]
        "t" false = Except.ok 7 :=
  missing_trigger_lookup_and_rename [] "t" "u" (by simp) (by simp)
    [⟨7, "VACUUM", "t", 5, CmdTrigType.fired_before, TrigEnabled.fires_on_origin⟩]
    ⟨7, "VACUUM", "t", 5, CmdTrigType.fired_before, TrigEnabled.fires_on_origin⟩
    false (by decide)

/-- C9: `InsertCmdTriggerTuple` stores every new trigger row with
enabled state `TRIGGER_FIRES_ON_ORIGIN`—not the unconditional
`TRIGGER_FIRES_ALWAYS`—and any row in that state is excluded from the
resolved rows of every command tag whenever the session replication
role is replica. -/
theorem created_trigger_fires_on_origin_only (rows rows₀ : List CmdTrigger)
    (newOid : Nat) (command trigname : String) (funcoid : Nat) (ty : CmdTrigType)
    (tag : String) (t : CmdTrigger)
    (henabled : t.ctgenabled = TrigEnabled.fires_on_origin) :
    InsertCmdTriggerTuple rows newOid command trigname funcoid ty
      = rows ++ [⟨newOid, command, trigname, funcoid, ty, TrigEnabled.fires_on_origin⟩]
    ∧ TrigEnabled.fires_on_origin ≠ TrigEnabled.fires_always
    ∧ t ∉ resolvedRows ReplRole.replica rows₀ tag := by
  refine ⟨rfl, by decide, ?_⟩
  intro hmem
  rw [mem_resolvedRows] at hmem
  have hfires := hmem.2.2
  rw [henabled] at hfires
  exact absurd hfires (by decide)

/-- Witness for C9: a freshly inserted trigger on CREATE TABLE is not
resolved for CREATE TABLE under the replica role. -/
theorem created_trigger_fires_on_origin_only_witness :
    InsertCmdTriggerTuple [] 7 "CREATE TABLE" "trg" 3 CmdTrigType.fired_before
      = [⟨7, "CREATE TABLE", "trg", 3, CmdTrigType.fired_before,
          TrigEnabled.fires_on_origin⟩]
    ∧ TrigEnabled.fires_on_origin ≠ TrigEnabled.fires_always
    ∧ (⟨7, "CREATE TABLE", "trg", 3, CmdTrigType.fired_before,
        TrigEnabled.fires_on_origin⟩ : CmdTrigger)
        ∉ resolvedRows ReplRole.replica
          [⟨7, "CREATE TABLE", "trg", 3, CmdTrigType.fired_before,
            TrigEnabled.fires_on_origin⟩] "CREATE TABLE" :=
  created_trigger_fires_on_origin_only []
    [⟨7, "CREATE TABLE", "trg", 3, CmdTrigType.fired_before,
      TrigEnabled.fires_on_origin⟩]
    7 "CREATE TABLE" "trg" 3 CmdTrigType.fired_before "CREATE TABLE"
    ⟨7, "CREATE TABLE", "trg", 3, CmdTrigType.fired_before,
      TrigEnabled.fires_on_origin⟩ rfl

/-- C10: initializing a command context with the any-command flag set
keeps the real command tag in the context but fills the before/after
lists from the "ANY" class only—no trigger registered under a
different (specific) command class can be among the resolved rows—and
`get_event_triggers` reports the wildcard-class list and the
specific-class list in two separate fields, each from its own cache
bucket, never merged. -/
theorem any_trigger_init_wildcard_exclusive (role : ReplRole) (rows : List CmdTrigger)
    (stmtTag : String) (t : CmdTrigger) (cache : List (Nat × List Nat))
    (event command : Nat)
    (hspecific : t.ctgcommand ≠ "ANY") :
    (InitCommandContext role rows stmtTag true).tag = stmtTag
    ∧ (InitCommandContext role rows stmtTag true).before
        = (ListCommandTriggers role rows "ANY").1
    ∧ (InitCommandContext role rows stmtTag true).after
        = (ListCommandTriggers role rows "ANY").2.1
    ∧ t ∉ resolvedRows role rows "ANY"
    ∧ (get_event_triggers cache event command).any_triggers
        = (cache.lookup (EVENT_COMMAND_TRIGGER_KEY E_ANY event)).getD []
    ∧ (get_event_triggers cache event command).cmd_triggers
        = (cache.lookup (EVENT_COMMAND_TRIGGER_KEY command event)).getD [] := by
  refine ⟨rfl, rfl, rfl, ?_, ?_, ?_⟩
  · intro hmem
    rw [mem_resolvedRows] at hmem
    exact hspecific hmem.2.1
  · cases hl : cache.lookup (EVENT_COMMAND_TRIGGER_KEY E_ANY event) <;>
      simp [get_event_triggers, hl]
  · cases hl : cache.lookup (EVENT_COMMAND_TRIGGER_KEY command event) <;>
      simp [get_event_triggers, hl]

/-- Witness for C10: a CREATE TABLE trigger in the catalog, the
CREATE TABLE command tag, and a cache with one wildcard bucket. -/
theorem any_trigger_init_wildcard_exclusive_witness :
    (InitCommandContext ReplRole.origin
        [⟨1, "CREATE TABLE", "trg", 3, CmdTrigType.fired_before,
          TrigEnabled.fires_always⟩] "CREATE TABLE" true).tag = "CREATE TABLE"
    ∧ (InitCommandContext ReplRole.origin
        [⟨1, "CREATE TABLE", "trg", 3, CmdTrigType.fired_before,
          TrigEnabled.fires_always⟩] "CREATE TABLE" true).before
        = (ListCommandTriggers ReplRole.origin
            [⟨1, "CREATE TABLE", "trg", 3, CmdTrigType.fired_before,
              TrigEnabled.fires_always⟩] "ANY").1
    ∧ (InitCommandContext ReplRole.origin
        [⟨1, "CREATE TABLE", "trg", 3, CmdTrigType.fired_before,
          TrigEnabled.fires_always⟩] "CREATE TABLE" true).after
        = (ListCommandTriggers ReplRole.origin
            [⟨1, "CREATE TABLE", "trg", 3, CmdTrigType.fired_before,
              TrigEnabled.fires_always⟩] "ANY").2.1
    ∧ (⟨1, "CREATE TABLE", "trg", 3, CmdTrigType.fired_before,
        TrigEnabled.fires_always⟩ : CmdTrigger)
        ∉ resolvedRows ReplRole.origin
          [⟨1, "CREATE TABLE", "trg", 3, CmdTrigType.fired_before,
            TrigEnabled.fires_always⟩] "ANY"
    ∧ (get_event_triggers [(65538, [5])] 2 3).any_triggers
        = (List.lookup (EVENT_COMMAND_TRIGGER_KEY E_ANY 2) [(65538, [5])]).getD []
    ∧ (get_event_triggers [(65538, [5])] 2 3).cmd_triggers
        = (List.lookup (EVENT_COMMAND_TRIGGER_KEY 3 2) [(65538, [5])]).getD [] :=
  any_trigger_init_wildcard_exclusive ReplRole.origin
    [⟨1, "CREATE TABLE", "trg", 3, CmdTrigType.fired_before,
      TrigEnabled.fires_always⟩] "CREATE TABLE"
    ⟨1, "CREATE TABLE", "trg", 3, CmdTrigType.fired_before,
      TrigEnabled.fires_always⟩ [(65538, [5])] 2 3 (by decide)
